import Mathlib

/-
Shallow embedding of src/gaussian_renderer/__init__.py (the render function
of the two-cloud Gaussian rendering pipeline).

Tensors are modelled as nested lists of rationals; a torch tensor of shape
(N, k) is a list of N rows, each a list of k rationals, and a tensor of
shape (N, C, 3) is a list of N matrices.  External collaborators (tan, sqrt,
eval_sh from utils.sh_utils, and the opaque CUDA rasterizer from
diff_gaussian_rasterization) are parameters of the development, gathered in
the ExternalFns structure; the claims never depend on their internals, only
on how render wires data into and out of them.
-/

abbrev T1 := List ℚ
abbrev T2 := List (List ℚ)
abbrev T3 := List (List (List ℚ))

/-- Image payload produced by the opaque rasterizer; never inspected. -/
abbrev Image := T3

/-- Camera fields read by render (viewpoint_camera in the source). -/
structure Camera where
  FoVx : ℚ
  FoVy : ℚ
  image_height : ℚ
  image_width : ℚ
  world_view_transform : T2
  full_proj_transform : T2
  camera_center : T1

/-- Pipeline flags read by render (pipe in the source). -/
structure Pipe where
  compute_cov3D_python : Bool
  convert_SHs_python : Bool
  debug : Bool

/-- Read-only snapshot of a primitive cloud, exposing exactly the fields and
accessors that render reads on pc and prePC.  The raw stored fields _xyz and
_opacity are distinct from the public accessors get_xyz (and the activated
opacity, which render never reads).  get_features has layout
(primitive, coefficient, channel=3): the source applies transpose(1, 2)
followed by view(-1, 3, (max_sh_degree+1)^2) to obtain the
(primitive, channel, coefficient) layout used by eval_sh, and passes
get_features through raw in the deferred branch. -/
structure GaussianModel where
  _xyz : T2
  _opacity : T2
  get_xyz : T2
  get_scaling : T2
  get_rotation : T2
  get_features : T3
  get_covariance : ℚ → T2
  active_sh_degree : ℕ
  max_sh_degree : ℕ

/-- Primitive count of a cloud, taken from its stored positions. -/
def GaussianModel.size (g : GaussianModel) : ℕ := g._xyz.length

/-- Well-formedness of a cloud: all per-primitive arrays agree on the
primitive count, and the SH feature block of each primitive holds
(max_sh_degree+1)^2 coefficient rows of 3 channels each. -/
structure GaussianModel.WF (g : GaussianModel) : Prop where
  opacity_len : g._opacity.length = g.size
  xyz_len : g.get_xyz.length = g.size
  scaling_len : g.get_scaling.length = g.size
  rot_len : g.get_rotation.length = g.size
  features_len : g.get_features.length = g.size
  cov_len : ∀ m, (g.get_covariance m).length = g.size
  features_shape : ∀ f ∈ g.get_features,
    f.length = (g.max_sh_degree + 1) ^ 2 ∧ ∀ v ∈ f, v.length = 3

/-- torch.zeros_like on a rank-2 tensor: same shape, all entries zero. -/
def zeros_like (t : T2) : T2 := t.map (fun r => r.map (fun _ => (0 : ℚ)))

/-- A tensor together with its requires_grad flag. -/
structure GradTensor where
  data : T2
  requires_grad : Bool

/-- Line 26 of the source: the screen-space placeholder of the dynamic
cloud, a zero tensor shaped like pc.get_xyz with requires_grad=True
(the trailing + 0 of the source is the identity). -/
def screenspace_points_of (pc : GaussianModel) : GradTensor :=
  { data := zeros_like pc.get_xyz, requires_grad := true }

/-- Line 32 of the source: the screen-space placeholder of the secondary
cloud, a zero tensor shaped like prePC.get_xyz with requires_grad=False. -/
def screenspace_points_pre_of (prePC : GaussianModel) : GradTensor :=
  { data := zeros_like prePC.get_xyz, requires_grad := false }

/-- Componentwise difference of two rows (broadcast subtraction). -/
def subRows (a b : T1) : T1 := List.zipWith (fun x y => x - y) a b

/-- Row norm as computed by tensor.norm(dim=1): the square root of the sum
of squares, with the square root left abstract. -/
def normRow (sqrt : ℚ → ℚ) (r : T1) : ℚ := sqrt ((r.map (fun x => x * x)).sum)

/-- Rowwise division of a rank-2 tensor by its row norms
(dir_pp / dir_pp.norm(dim=1, keepdim=True) in the source). -/
def normalizeRows (sqrt : ℚ → ℚ) (t : T2) : T2 :=
  t.map (fun r => r.map (fun x => x / normRow sqrt r))

/-- Lines 91 and 92 of the source: per-primitive viewing offsets of one
cloud, get_xyz minus the camera center repeated get_features.shape[0]
times. -/
def dir_pp_of (viewpoint_camera : Camera) (g : GaussianModel) : T2 :=
  List.zipWith subRows g.get_xyz
    (List.replicate g.get_features.length viewpoint_camera.camera_center)

/-- Lines 86 and 87 of the source: get_features.transpose(1, 2) turns the
(primitive, coefficient, 3) block of each primitive into a
(3, coefficient) block; the subsequent view(-1, 3, (max_sh_degree+1)^2)
is the identity on a well-formed cloud, whose per-primitive coefficient
count is exactly (max_sh_degree+1)^2. -/
def shs_view_of (g : GaussianModel) : T3 :=
  g.get_features.map List.transpose

/-- Line 98 of the source: torch.clamp_min(sh2rgb + 0.5, 0.0),
componentwise. -/
def clampMinHalf (t : T2) : T2 :=
  t.map (fun r => r.map (fun x => max (x + 1/2) 0))

/-- The per-call rasterization configuration (lines 43 to 56). -/
structure GaussianRasterizationSettings where
  image_height : ℤ
  image_width : ℤ
  tanfovx : ℚ
  tanfovy : ℚ
  bg : T1
  scale_modifier : ℚ
  viewmatrix : T2
  projmatrix : T2
  sh_degree : ℕ
  campos : T1
  prefiltered : Bool
  debug : Bool

/-- The keyword arguments of the rasterizer call (lines 108 to 116). -/
structure RasterizerInput where
  means3D : T2
  means2D : T2
  shs : Option T3
  colors_precomp : Option T2
  opacities : T2
  scales : Option T2
  rotations : Option T2
  cov3D_precomp : Option T2

/-- External collaborators of render, kept abstract: math.tan, the square
root inside tensor.norm, eval_sh from utils.sh_utils, and the opaque
rasterizer, which returns a rendered image and per-primitive radii. -/
structure ExternalFns where
  tan : ℚ → ℚ
  sqrt : ℚ → ℚ
  eval_sh : ℕ → T3 → T2 → T2
  rasterizer : GaussianRasterizationSettings → RasterizerInput → Image × T1

/-- Python int() on a rational: truncation toward zero. -/
def pyInt (q : ℚ) : ℤ := if 0 ≤ q then ⌊q⌋ else -⌊-q⌋

/-- Lines 40 to 56 of the source: the immutable per-call configuration.
Note sh_degree is the active degree of the dynamic cloud pc. -/
def buildSettings (E : ExternalFns) (viewpoint_camera : Camera)
    (pc : GaussianModel) (pipe : Pipe) (bg_color : T1)
    (scaling_modifier : ℚ) : GaussianRasterizationSettings :=
  { image_height := pyInt viewpoint_camera.image_height,
    image_width := pyInt viewpoint_camera.image_width,
    tanfovx := E.tan (viewpoint_camera.FoVx * (1/2)),
    tanfovy := E.tan (viewpoint_camera.FoVy * (1/2)),
    bg := bg_color,
    scale_modifier := scaling_modifier,
    viewmatrix := viewpoint_camera.world_view_transform,
    projmatrix := viewpoint_camera.full_proj_transform,
    sh_degree := pc.active_sh_degree,
    campos := viewpoint_camera.camera_center,
    prefiltered := false,
    debug := pipe.debug }

/-- Lines 34 to 37 and 63 to 105 of the source: the merged per-primitive
tensors handed to the rasterizer.  The Python code initialises scales,
rotations, cov3D_precomp, shs and colors_precomp to None and overwrites
some of them in the two conditionals; here each field is given directly by
the corresponding branch of those conditionals. -/
def buildRasterInput (E : ExternalFns) (viewpoint_camera : Camera)
    (pc prePC : GaussianModel) (pipe : Pipe) (scaling_modifier : ℚ)
    (override_color : Option T2) : RasterizerInput :=
  { means3D := pc._xyz ++ prePC._xyz,
    means2D := (screenspace_points_of pc).data
      ++ (screenspace_points_pre_of prePC).data,
    opacities := pc._opacity ++ prePC._opacity,
    scales := if pipe.compute_cov3D_python then none
      else some (pc.get_scaling ++ prePC.get_scaling),
    rotations := if pipe.compute_cov3D_python then none
      else some (pc.get_rotation ++ prePC.get_rotation),
    cov3D_precomp := if pipe.compute_cov3D_python then
        some (pc.get_covariance scaling_modifier
          ++ prePC.get_covariance scaling_modifier)
      else none,
    shs := match override_color with
      | none =>
        if pipe.convert_SHs_python then none
        else some (pc.get_features ++ prePC.get_features)
      | some _ => none,
    colors_precomp := match override_color with
      | none =>
        if pipe.convert_SHs_python then
          some (clampMinHalf (E.eval_sh pc.active_sh_degree
            (shs_view_of pc ++ shs_view_of prePC)
            (normalizeRows E.sqrt
              (dir_pp_of viewpoint_camera pc ++ dir_pp_of viewpoint_camera prePC))))
        else none
      | some c => some c }

/-- Observable events of one render call, in execution order: the guarded
retain_grad attempt on the dynamic placeholder (lines 27 to 30, recording
whether the attempt raised) and the rasterizer invocation (line 108). -/
inductive REvent where
  | retainGradTried (failed : Bool)
  | rasterized
deriving DecidableEq

/-- Whether the retain_grad call raised; the bare except of lines 29 and 30
discards the exception payload, so Unit carries it. -/
def tryFailed : Except Unit Unit → Bool
  | Except.ok _ => false
  | Except.error _ => true

/-- The dictionary returned by render (lines 120 to 123). -/
structure RenderResult where
  render : Image
  viewspace_points : GradTensor
  visibility_filter : List Bool
  radii : T1

/-- The render function of src/gaussian_renderer/__init__.py, together with
the trace of its observable events.  retain_grad_result is the outcome of
the retain_grad attempt in the ambient execution context; the try/except of
lines 27 to 30 swallows a failure, so the result never depends on it and
only the event trace records it. -/
def render (E : ExternalFns) (viewpoint_camera : Camera)
    (pc prePC : GaussianModel) (pipe : Pipe) (bg_color : T1)
    (scaling_modifier : ℚ) (override_color : Option T2)
    (retain_grad_result : Except Unit Unit) : RenderResult × List REvent :=
  let screenspace_points := screenspace_points_of pc
  let raster_settings :=
    buildSettings E viewpoint_camera pc pipe bg_color scaling_modifier
  let inp :=
    buildRasterInput E viewpoint_camera pc prePC pipe scaling_modifier
      override_color
  let out := E.rasterizer raster_settings inp
  ({ render := out.1,
     viewspace_points := screenspace_points,
     visibility_filter := out.2.map (fun r => decide (0 < r)),
     radii := out.2 },
   [REvent.retainGradTried (tryFailed retain_grad_result), REvent.rasterized])

/-- Concrete external functions for witnesses: identity tan and sqrt, a
length-preserving eval_sh, and a rasterizer returning radius 1 for every
input primitive. -/
def Eid : ExternalFns :=
  { tan := fun q => q,
    sqrt := fun q => q,
    eval_sh := fun _ s _ => s.map (fun _ => [0, 0, 0]),
    rasterizer := fun _ inp => (([] : Image), inp.means3D.map (fun _ => (1 : ℚ))) }

/-- Concrete camera for witnesses. -/
def cam1 : Camera :=
  { FoVx := 0, FoVy := 0, image_height := 4, image_width := 6,
    world_view_transform := [], full_proj_transform := [],
    camera_center := [0, 0, 0] }

/-- Concrete background color. -/
def bg1 : T1 := [0, 0, 0]

/-- Pipe with both python-side options off. -/
def pipeFF : Pipe :=
  { compute_cov3D_python := false, convert_SHs_python := false, debug := false }

/-- Pipe with python-side covariance on. -/
def pipeCovTrue : Pipe :=
  { compute_cov3D_python := true, convert_SHs_python := false, debug := false }

/-- Pipe with python-side SH conversion on. -/
def pipeConvTrue : Pipe :=
  { compute_cov3D_python := false, convert_SHs_python := true, debug := false }

/-- Concrete dynamic cloud: one primitive, max SH degree 1, hence 4
coefficient rows per primitive. -/
def pc1 : GaussianModel :=
  { _xyz := [[1, 0, 0]],
    _opacity := [[1]],
    get_xyz := [[1, 0, 0]],
    get_scaling := [[1, 1, 1]],
    get_rotation := [[1, 0, 0, 0]],
    get_features := [[[1, 2, 3], [0, 0, 0], [0, 0, 0], [0, 0, 0]]],
    get_covariance := fun _ => [[1, 0, 0, 1, 0, 1]],
    active_sh_degree := 1,
    max_sh_degree := 1 }

/-- Concrete secondary cloud: two primitives, max SH degree 1. -/
def pre1 : GaussianModel :=
  { _xyz := [[0, 1, 0], [0, 0, 1]],
    _opacity := [[1], [1]],
    get_xyz := [[0, 1, 0], [0, 0, 1]],
    get_scaling := [[1, 1, 1], [1, 1, 1]],
    get_rotation := [[1, 0, 0, 0], [1, 0, 0, 0]],
    get_features := [[[4, 5, 6], [0, 0, 0], [0, 0, 0], [0, 0, 0]],
                     [[7, 8, 9], [0, 0, 0], [0, 0, 0], [0, 0, 0]]],
    get_covariance := fun _ => [[1, 0, 0, 1, 0, 1], [1, 0, 0, 1, 0, 1]],
    active_sh_degree := 1,
    max_sh_degree := 1 }

/-- Concrete cloud whose public get_xyz differs from the stored _xyz. -/
def pcDiv : GaussianModel :=
  { _xyz := [[1, 0, 0]],
    _opacity := [[1]],
    get_xyz := [[2, 0, 0]],
    get_scaling := [[1, 1, 1]],
    get_rotation := [[1, 0, 0, 0]],
    get_features := [[[0, 0, 0]]],
    get_covariance := fun _ => [[1, 0, 0, 1, 0, 1]],
    active_sh_degree := 0,
    max_sh_degree := 0 }

/-- Well-formedness of the concrete dynamic cloud. -/
theorem pc1_wf : pc1.WF :=
  ⟨rfl, rfl, rfl, rfl, rfl, fun _ => rfl, by decide⟩

/-- Well-formedness of the concrete secondary cloud. -/
theorem pre1_wf : pre1.WF :=
  ⟨rfl, rfl, rfl, rfl, rfl, fun _ => rfl, by decide⟩

/-- Every entry of a clamped color tensor is non-negative. -/
theorem clampMinHalf_nonneg (t : T2) :
    ∀ row ∈ clampMinHalf t, ∀ x ∈ row, 0 ≤ x := by
  intro row hrow x hx
  simp only [clampMinHalf, List.mem_map] at hrow
  obtain ⟨r, _, rfl⟩ := hrow
  simp only [List.mem_map] at hx
  obtain ⟨y, _, rfl⟩ := hx
  exact le_max_right _ _

/-- Indexing a mapped list applies the function to the indexed element. -/
theorem get_map_list {α β : Type} (f : α → β) (l : List α) (i : ℕ)
    (h1 : i < (l.map f).length) (h2 : i < l.length) :
    (l.map f).get ⟨i, h1⟩ = f (l.get ⟨i, h2⟩) := by
  simp

/-- Claim C5: when override_color is supplied, the color input passed to the
rasterizer equals override_color unchanged, for every value of
convert_SHs_python, the SH argument is None, and the SH data of both clouds
is not read: replacing either get_features tensor leaves the rasterizer
input unchanged. -/
theorem c5_override_passthrough (E : ExternalFns) (vc : Camera)
    (pc prePC : GaussianModel) (pipe : Pipe) (sm : ℚ) (c : T2) :
    (buildRasterInput E vc pc prePC pipe sm (some c)).colors_precomp = some c
    ∧ (buildRasterInput E vc pc prePC pipe sm (some c)).shs = none
    ∧ ∀ F F2 : T3,
        buildRasterInput E vc { pc with get_features := F }
          { prePC with get_features := F2 } pipe sm (some c)
        = buildRasterInput E vc pc prePC pipe sm (some c) :=
  ⟨rfl, rfl, fun _ _ => rfl⟩

/-- Claim C8: the gradient-tracked screen-space tensor in the returned
result is the dynamic-cloud-only placeholder, its length is exactly the
dynamic cloud size, and it does not depend on the secondary cloud. -/
theorem c8_viewspace_dynamic_only (E : ExternalFns) (vc : Camera)
    (pc prePC : GaussianModel) (pipe : Pipe) (bg : T1) (sm : ℚ)
    (oc : Option T2) (r : Except Unit Unit) (h : pc.WF) :
    (render E vc pc prePC pipe bg sm oc r).1.viewspace_points
      = screenspace_points_of pc
    ∧ (render E vc pc prePC pipe bg sm oc r).1.viewspace_points.data.length
      = pc.size
    ∧ ∀ prePC2, (render E vc pc prePC2 pipe bg sm oc r).1.viewspace_points
      = screenspace_points_of pc := by
  refine ⟨rfl, ?_, fun _ => rfl⟩
  simp [render, screenspace_points_of, zeros_like, h.xyz_len]

/-- Witness for claim C8 at a concrete call. -/
theorem c8_viewspace_dynamic_only_witness :
    (render Eid cam1 pc1 pre1 pipeFF bg1 1 none (Except.ok ())).1.viewspace_points.data.length
      = pc1.size :=
  (c8_viewspace_dynamic_only Eid cam1 pc1 pre1 pipeFF bg1 1 none
    (Except.ok ()) pc1_wf).2.1

/-- Claim C9 (amended): the dynamic placeholder is created gradient-tracked
and the secondary placeholder is a zero tensor without gradient tracking;
the best-effort gradient-retention request is performed right after the
dynamic placeholder is created, before the rasterization call, and any
failure of that request is swallowed: the returned result is the same for
every retention outcome. -/
theorem c9_retain_grad_swallowed (E : ExternalFns) (vc : Camera)
    (pc prePC : GaussianModel) (pipe : Pipe) (bg : T1) (sm : ℚ)
    (oc : Option T2) (r : Except Unit Unit) :
    (screenspace_points_of pc).requires_grad = true
    ∧ (screenspace_points_pre_of prePC).requires_grad = false
    ∧ (screenspace_points_pre_of prePC).data = zeros_like prePC.get_xyz
    ∧ (render E vc pc prePC pipe bg sm oc r).1
      = (render E vc pc prePC pipe bg sm oc (Except.ok ())).1
    ∧ (render E vc pc prePC pipe bg sm oc r).2
      = [REvent.retainGradTried (tryFailed r), REvent.rasterized] :=
  ⟨rfl, rfl, rfl, rfl, rfl⟩

/-- Counterexample to claim C9 as stated: on a concrete call whose
retention attempt fails, the event trace records the retention attempt
strictly before the rasterizer invocation, not after it. -/
theorem c9_counterexample :
    (render Eid cam1 pc1 pre1 pipeFF bg1 1 none (Except.error ())).2
      = [REvent.retainGradTried true, REvent.rasterized]
    ∧ (render Eid cam1 pc1 pre1 pipeFF bg1 1 none (Except.error ())).2
      ≠ [REvent.rasterized, REvent.retainGradTried true] :=
  ⟨rfl, by decide⟩

/-- Claim C7: the returned visibility filter satisfies
visibilityFilter[i] = (radii[i] > 0) for every index, and when the
rasterizer honours its contract of returning one radius per input
primitive, both vectors have length N1 + N2. -/
theorem c7_visibility_filter (E : ExternalFns) (vc : Camera)
    (pc prePC : GaussianModel) (pipe : Pipe) (bg : T1) (sm : ℚ)
    (oc : Option T2) (r : Except Unit Unit)
    (hR : ∀ s inp, ((E.rasterizer s inp).2).length = inp.means3D.length) :
    (render E vc pc prePC pipe bg sm oc r).1.visibility_filter
      = (render E vc pc prePC pipe bg sm oc r).1.radii.map
          (fun x => decide (0 < x))
    ∧ (render E vc pc prePC pipe bg sm oc r).1.radii.length
      = pc.size + prePC.size
    ∧ (render E vc pc prePC pipe bg sm oc r).1.visibility_filter.length
      = pc.size + prePC.size
    ∧ ∀ i (h1 : i < (render E vc pc prePC pipe bg sm oc r).1.visibility_filter.length)
        (h2 : i < (render E vc pc prePC pipe bg sm oc r).1.radii.length),
        (render E vc pc prePC pipe bg sm oc r).1.visibility_filter.get ⟨i, h1⟩
          = decide (0 < (render E vc pc prePC pipe bg sm oc r).1.radii.get ⟨i, h2⟩) := by
  have hrad : (render E vc pc prePC pipe bg sm oc r).1.radii.length
      = pc.size + prePC.size := by
    simp [render, hR, buildRasterInput, GaussianModel.size]
  refine ⟨rfl, hrad, ?_, ?_⟩
  · have hmap : (render E vc pc prePC pipe bg sm oc r).1.visibility_filter
        = (render E vc pc prePC pipe bg sm oc r).1.radii.map
            (fun x => decide (0 < x)) := rfl
    rw [hmap, List.length_map]
    exact hrad
  · intro i h1 h2
    exact get_map_list _ _ i h1 h2

/-- Claim C6: exactly one of the shs and colors_precomp arguments passed to
the rasterizer is non-None, selected by override supplied / no override
with convert_SHs_python true / no override with convert_SHs_python false
respectively. -/
theorem c6_color_mode_exclusive (E : ExternalFns) (vc : Camera)
    (pc prePC : GaussianModel) (pipe : Pipe) (sm : ℚ) (oc : Option T2) :
    ((buildRasterInput E vc pc prePC pipe sm oc).shs.isSome
      && (buildRasterInput E vc pc prePC pipe sm oc).colors_precomp.isSome) = false
    ∧ ((buildRasterInput E vc pc prePC pipe sm oc).shs.isSome
      || (buildRasterInput E vc pc prePC pipe sm oc).colors_precomp.isSome) = true
    ∧ (∀ c, oc = some c →
        (buildRasterInput E vc pc prePC pipe sm oc).colors_precomp = some c
        ∧ (buildRasterInput E vc pc prePC pipe sm oc).shs = none)
    ∧ (oc = none → pipe.convert_SHs_python = true →
        (buildRasterInput E vc pc prePC pipe sm oc).colors_precomp
          = some (clampMinHalf (E.eval_sh pc.active_sh_degree
              (shs_view_of pc ++ shs_view_of prePC)
              (normalizeRows E.sqrt (dir_pp_of vc pc ++ dir_pp_of vc prePC))))
        ∧ (buildRasterInput E vc pc prePC pipe sm oc).shs = none)
    ∧ (oc = none → pipe.convert_SHs_python = false →
        (buildRasterInput E vc pc prePC pipe sm oc).shs
          = some (pc.get_features ++ prePC.get_features)
        ∧ (buildRasterInput E vc pc prePC pipe sm oc).colors_precomp = none) := by
  cases oc <;> cases hc : pipe.convert_SHs_python <;>
    simp [buildRasterInput, hc]

/-- Witness for claim C6 at a concrete call in deferred-SH mode. -/
theorem c6_color_mode_exclusive_witness :
    (buildRasterInput Eid cam1 pc1 pre1 pipeFF 1 none).shs
      = some (pc1.get_features ++ pre1.get_features)
    ∧ (buildRasterInput Eid cam1 pc1 pre1 pipeFF 1 none).colors_precomp = none :=
  (c6_color_mode_exclusive Eid cam1 pc1 pre1 pipeFF 1 none).2.2.2.2 rfl rfl

/-- Claim C4: when compute_cov3D_python is true the scale and rotation
arguments are absent and a merged covariance tensor of length N1 + N2,
derived per cloud with scaling_modifier and concatenated dynamic-first, is
present; when false the covariance argument is absent and merged scale and
rotation tensors are present; covariance present iff scale and rotation
absent. -/
theorem c4_geometry_exclusive (E : ExternalFns) (vc : Camera)
    (pc prePC : GaussianModel) (pipe : Pipe) (sm : ℚ) (oc : Option T2)
    (h1 : pc.WF) (h2 : prePC.WF) :
    (pipe.compute_cov3D_python = true →
      (buildRasterInput E vc pc prePC pipe sm oc).scales = none
      ∧ (buildRasterInput E vc pc prePC pipe sm oc).rotations = none
      ∧ (buildRasterInput E vc pc prePC pipe sm oc).cov3D_precomp
          = some (pc.get_covariance sm ++ prePC.get_covariance sm)
      ∧ (pc.get_covariance sm ++ prePC.get_covariance sm).length
          = pc.size + prePC.size)
    ∧ (pipe.compute_cov3D_python = false →
      (buildRasterInput E vc pc prePC pipe sm oc).cov3D_precomp = none
      ∧ (buildRasterInput E vc pc prePC pipe sm oc).scales
          = some (pc.get_scaling ++ prePC.get_scaling)
      ∧ (buildRasterInput E vc pc prePC pipe sm oc).rotations
          = some (pc.get_rotation ++ prePC.get_rotation)
      ∧ (pc.get_scaling ++ prePC.get_scaling).length = pc.size + prePC.size
      ∧ (pc.get_rotation ++ prePC.get_rotation).length = pc.size + prePC.size)
    ∧ ((buildRasterInput E vc pc prePC pipe sm oc).cov3D_precomp.isSome
        ↔ (buildRasterInput E vc pc prePC pipe sm oc).scales = none
          ∧ (buildRasterInput E vc pc prePC pipe sm oc).rotations = none) := by
  cases hc : pipe.compute_cov3D_python <;>
    simp [buildRasterInput, hc, h1.cov_len, h2.cov_len, h1.scaling_len,
      h2.scaling_len, h1.rot_len, h2.rot_len]

/-- Witness for claim C4 at a concrete call with python-side covariance. -/
theorem c4_geometry_exclusive_witness :
    (buildRasterInput Eid cam1 pc1 pre1 pipeCovTrue 1 none).scales = none
    ∧ (buildRasterInput Eid cam1 pc1 pre1 pipeCovTrue 1 none).cov3D_precomp
      = some (pc1.get_covariance 1 ++ pre1.get_covariance 1) := by
  have h := (c4_geometry_exclusive Eid cam1 pc1 pre1 pipeCovTrue 1 none
    pc1_wf pre1_wf).1 rfl
  exact ⟨h.1, h.2.2.1⟩

/-- Claim C2: with no override and convert_SHs_python true, the color input
equals clamp_min(eval_sh(d, S, v) + 0.5, 0) where d is the active SH degree
of the dynamic cloud, S the merged reshaped SH tensor and v the normalized
per-primitive directions; every entry is non-negative; and the active SH
degree of the secondary cloud is never consulted. -/
theorem c2_convert_shs_formula (E : ExternalFns) (vc : Camera)
    (pc prePC : GaussianModel) (pipe : Pipe) (sm : ℚ) (oc : Option T2)
    (hoc : oc = none) (hconv : pipe.convert_SHs_python = true) :
    (buildRasterInput E vc pc prePC pipe sm oc).colors_precomp
      = some (clampMinHalf (E.eval_sh pc.active_sh_degree
          (shs_view_of pc ++ shs_view_of prePC)
          (normalizeRows E.sqrt (dir_pp_of vc pc ++ dir_pp_of vc prePC))))
    ∧ (∀ colors,
        (buildRasterInput E vc pc prePC pipe sm oc).colors_precomp = some colors →
        ∀ row ∈ colors, ∀ x ∈ row, 0 ≤ x)
    ∧ (∀ d, buildRasterInput E vc pc
          { prePC with active_sh_degree := d } pipe sm oc
        = buildRasterInput E vc pc prePC pipe sm oc) := by
  subst hoc
  have h1 : (buildRasterInput E vc pc prePC pipe sm none).colors_precomp
      = some (clampMinHalf (E.eval_sh pc.active_sh_degree
          (shs_view_of pc ++ shs_view_of prePC)
          (normalizeRows E.sqrt (dir_pp_of vc pc ++ dir_pp_of vc prePC)))) := by
    simp [buildRasterInput, hconv]
  refine ⟨h1, ?_, fun _ => rfl⟩
  intro colors hc2 row hrow x hx
  rw [h1] at hc2
  have hcol := Option.some.inj hc2
  subst hcol
  exact clampMinHalf_nonneg _ row hrow x hx

/-- Witness for claim C2 at a concrete call. -/
theorem c2_convert_shs_formula_witness :
    (buildRasterInput Eid cam1 pc1 pre1 pipeConvTrue 1 none).colors_precomp
      = some (clampMinHalf (Eid.eval_sh pc1.active_sh_degree
          (shs_view_of pc1 ++ shs_view_of pre1)
          (normalizeRows Eid.sqrt (dir_pp_of cam1 pc1 ++ dir_pp_of cam1 pre1)))) :=
  (c2_convert_shs_formula Eid cam1 pc1 pre1 pipeConvTrue 1 none rfl rfl).1

/-- Claim C10: the merged 3D positions and opacities passed to the
rasterizer are concatenations of the raw stored fields _xyz and _opacity,
whereas the screen-space placeholders and the local-evaluation view
directions are built from the public get_xyz accessor; on a concrete cloud
whose get_xyz differs from _xyz, the direction offsets differ from the ones
the stored positions would give. -/
theorem c10_raw_vs_accessor (E : ExternalFns) (vc : Camera)
    (pc prePC : GaussianModel) (pipe : Pipe) (sm : ℚ) (oc : Option T2)
    (hconv : pipe.convert_SHs_python = true) (hoc : oc = none) :
    (buildRasterInput E vc pc prePC pipe sm oc).means3D = pc._xyz ++ prePC._xyz
    ∧ (buildRasterInput E vc pc prePC pipe sm oc).opacities
      = pc._opacity ++ prePC._opacity
    ∧ (buildRasterInput E vc pc prePC pipe sm oc).means2D
      = zeros_like pc.get_xyz ++ zeros_like prePC.get_xyz
    ∧ (buildRasterInput E vc pc prePC pipe sm oc).colors_precomp
      = some (clampMinHalf (E.eval_sh pc.active_sh_degree
          (shs_view_of pc ++ shs_view_of prePC)
          (normalizeRows E.sqrt (dir_pp_of vc pc ++ dir_pp_of vc prePC))))
    ∧ dir_pp_of cam1 pcDiv
      ≠ List.zipWith subRows pcDiv._xyz
          (List.replicate pcDiv.get_features.length cam1.camera_center) := by
  subst hoc
  refine ⟨rfl, rfl, rfl, by simp [buildRasterInput, hconv], ?_⟩
  simp [dir_pp_of, subRows, pcDiv, cam1]

/-- Witness for claim C10 at a concrete call. -/
theorem c10_raw_vs_accessor_witness :
    (buildRasterInput Eid cam1 pc1 pre1 pipeConvTrue 1 none).means3D
      = pc1._xyz ++ pre1._xyz :=
  (c10_raw_vs_accessor Eid cam1 pc1 pre1 pipeConvTrue 1 none rfl rfl).1

/-- Claim C1: for well-formed clouds of sizes N1 and N2, every merged
per-primitive tensor built by render is the concatenation of the dynamic
cloud part (length N1, indices 0 to N1-1) followed by the secondary cloud
part, and has length N1 + N2: positions, opacities, the merged screen-space
placeholder, the geometry tensors of whichever geometry mode applies, the
merged raw SH tensor in deferred mode, and in local-evaluation mode the
merged reshaped SH tensor, the merged direction tensor, and the evaluated
color tensor (assuming the external eval_sh returns one color per
primitive). -/
theorem c1_merged_concats (E : ExternalFns) (vc : Camera)
    (pc prePC : GaussianModel) (pipe : Pipe) (sm : ℚ) (oc : Option T2)
    (h1 : pc.WF) (h2 : prePC.WF)
    (hE : ∀ d S v, (E.eval_sh d S v).length = S.length) :
    ((buildRasterInput E vc pc prePC pipe sm oc).means3D
        = pc._xyz ++ prePC._xyz
      ∧ pc._xyz.length = pc.size
      ∧ (buildRasterInput E vc pc prePC pipe sm oc).means3D.length
        = pc.size + prePC.size)
    ∧ ((buildRasterInput E vc pc prePC pipe sm oc).opacities
        = pc._opacity ++ prePC._opacity
      ∧ pc._opacity.length = pc.size
      ∧ (buildRasterInput E vc pc prePC pipe sm oc).opacities.length
        = pc.size + prePC.size)
    ∧ ((buildRasterInput E vc pc prePC pipe sm oc).means2D
        = (screenspace_points_of pc).data ++ (screenspace_points_pre_of prePC).data
      ∧ (screenspace_points_of pc).data.length = pc.size
      ∧ (buildRasterInput E vc pc prePC pipe sm oc).means2D.length
        = pc.size + prePC.size)
    ∧ (pipe.compute_cov3D_python = true →
        (buildRasterInput E vc pc prePC pipe sm oc).cov3D_precomp
          = some (pc.get_covariance sm ++ prePC.get_covariance sm)
        ∧ (pc.get_covariance sm).length = pc.size
        ∧ (pc.get_covariance sm ++ prePC.get_covariance sm).length
          = pc.size + prePC.size)
    ∧ (pipe.compute_cov3D_python = false →
        (buildRasterInput E vc pc prePC pipe sm oc).scales
          = some (pc.get_scaling ++ prePC.get_scaling)
        ∧ pc.get_scaling.length = pc.size
        ∧ (pc.get_scaling ++ prePC.get_scaling).length = pc.size + prePC.size
        ∧ (buildRasterInput E vc pc prePC pipe sm oc).rotations
          = some (pc.get_rotation ++ prePC.get_rotation)
        ∧ pc.get_rotation.length = pc.size
        ∧ (pc.get_rotation ++ prePC.get_rotation).length = pc.size + prePC.size)
    ∧ (oc = none → pipe.convert_SHs_python = false →
        (buildRasterInput E vc pc prePC pipe sm oc).shs
          = some (pc.get_features ++ prePC.get_features)
        ∧ pc.get_features.length = pc.size
        ∧ (pc.get_features ++ prePC.get_features).length = pc.size + prePC.size)
    ∧ (oc = none → pipe.convert_SHs_python = true →
        (shs_view_of pc).length = pc.size
        ∧ (shs_view_of pc ++ shs_view_of prePC).length = pc.size + prePC.size
        ∧ (dir_pp_of vc pc).length = pc.size
        ∧ (dir_pp_of vc pc ++ dir_pp_of vc prePC).length = pc.size + prePC.size
        ∧ ∃ cs, (buildRasterInput E vc pc prePC pipe sm oc).colors_precomp
              = some cs
            ∧ cs.length = pc.size + prePC.size) := by
  refine ⟨⟨rfl, rfl, ?_⟩, ⟨rfl, h1.opacity_len, ?_⟩, ⟨rfl, ?_, ?_⟩,
    ?_, ?_, ?_, ?_⟩
  · simp [buildRasterInput, GaussianModel.size]
  · simp [buildRasterInput, h1.opacity_len, h2.opacity_len]
  · simp [screenspace_points_of, zeros_like, h1.xyz_len]
  · simp [buildRasterInput, screenspace_points_of, screenspace_points_pre_of,
      zeros_like, h1.xyz_len, h2.xyz_len]
  · intro hc
    exact ⟨by simp [buildRasterInput, hc], h1.cov_len sm,
      by simp [h1.cov_len, h2.cov_len]⟩
  · intro hc
    exact ⟨by simp [buildRasterInput, hc], h1.scaling_len,
      by simp [h1.scaling_len, h2.scaling_len],
      by simp [buildRasterInput, hc], h1.rot_len,
      by simp [h1.rot_len, h2.rot_len]⟩
  · intro hoc hc
    subst hoc
    exact ⟨by simp [buildRasterInput, hc], h1.features_len,
      by simp [h1.features_len, h2.features_len]⟩
  · intro hoc hc
    subst hoc
    refine ⟨by simp [shs_view_of, h1.features_len], ?_, ?_, ?_, ?_⟩
    · simp [shs_view_of, h1.features_len, h2.features_len]
    · simp [dir_pp_of, h1.xyz_len, h1.features_len]
    · simp [dir_pp_of, h1.xyz_len, h1.features_len, h2.xyz_len, h2.features_len]
    · refine ⟨clampMinHalf (E.eval_sh pc.active_sh_degree
          (shs_view_of pc ++ shs_view_of prePC)
          (normalizeRows E.sqrt (dir_pp_of vc pc ++ dir_pp_of vc prePC))),
        by simp [buildRasterInput, hc], ?_⟩
      simp [clampMinHalf, normalizeRows, hE, shs_view_of,
        h1.features_len, h2.features_len]

/-- Witness for claim C1 at a concrete call. -/
theorem c1_merged_concats_witness :
    (buildRasterInput Eid cam1 pc1 pre1 pipeFF 1 none).means3D.length
      = pc1.size + pre1.size :=
  (c1_merged_concats Eid cam1 pc1 pre1 pipeFF 1 none pc1_wf pre1_wf
    (fun _ S _ => by simp [Eid])).1.2.2

/-- Counterexample to claim C3 as stated: on a concrete deferred-mode call
(no override, convert_SHs_python false) with max SH degree 1 on both
clouds, the merged SH tensor passed to the rasterizer is the plain
concatenation of the raw get_features tensors, it is not the concatenation
of the reshaped (primitive, channel=3, coefficient) tensors, and its middle
dimension is the coefficient count 4, not 3. -/
theorem c3_counterexample :
    (buildRasterInput Eid cam1 pc1 pre1 pipeFF 1 none).shs
      = some (pc1.get_features ++ pre1.get_features)
    ∧ (buildRasterInput Eid cam1 pc1 pre1 pipeFF 1 none).shs
      ≠ some (shs_view_of pc1 ++ shs_view_of pre1)
    ∧ ∃ f ∈ pc1.get_features ++ pre1.get_features, f.length ≠ 3 := by
  refine ⟨by decide, by decide, ?_⟩
  exact ⟨[[1, 2, 3], [0, 0, 0], [0, 0, 0], [0, 0, 0]], by decide, by decide⟩

/-- Claim C3 (amended): with no override and convert_SHs_python false, each
cloud contributes its raw get_features tensor of layout
(primitive, coefficient, channel=3) without any reshaping; the merged SH
tensor passed to the rasterizer is their concatenation, of shape
(N1 + N2, C, 3) with C = (maxSHDegree + 1)^2 when both well-formed clouds
share that maximum degree, and is otherwise unchanged.  The reshape into
(primitive, channel=3, coefficient) layout happens only in the
local-evaluation branch. -/
theorem c3_deferred_shs_raw (E : ExternalFns) (vc : Camera)
    (pc prePC : GaussianModel) (pipe : Pipe) (sm : ℚ)
    (hconv : pipe.convert_SHs_python = false)
    (h1 : pc.WF) (h2 : prePC.WF) (m : ℕ)
    (hm1 : pc.max_sh_degree = m) (hm2 : prePC.max_sh_degree = m) :
    (buildRasterInput E vc pc prePC pipe sm none).shs
      = some (pc.get_features ++ prePC.get_features)
    ∧ (pc.get_features ++ prePC.get_features).length = pc.size + prePC.size
    ∧ ∀ f ∈ pc.get_features ++ prePC.get_features,
        f.length = (m + 1) ^ 2 ∧ ∀ v ∈ f, v.length = 3 := by
  refine ⟨by simp [buildRasterInput, hconv],
    by simp [h1.features_len, h2.features_len], ?_⟩
  intro f hf
  rcases List.mem_append.mp hf with hf | hf
  · have h := h1.features_shape f hf
    rwa [hm1] at h
  · have h := h2.features_shape f hf
    rwa [hm2] at h

/-- Witness for the amended claim C3 at a concrete call. -/
theorem c3_deferred_shs_raw_witness :
    (buildRasterInput Eid cam1 pc1 pre1 pipeFF 1 none).shs
      = some (pc1.get_features ++ pre1.get_features) :=
  (c3_deferred_shs_raw Eid cam1 pc1 pre1 pipeFF 1 rfl pc1_wf pre1_wf
    1 rfl rfl).1

/-- Witness for claim C7 at a concrete call. -/
theorem c7_visibility_filter_witness :
    (render Eid cam1 pc1 pre1 pipeFF bg1 1 none (Except.ok ())).1.radii.length
      = pc1.size + pre1.size :=
  (c7_visibility_filter Eid cam1 pc1 pre1 pipeFF bg1 1 none (Except.ok ())
    (fun _ inp => by simp [Eid])).2.1
